import Mathlib

/-!
Shallow embedding of the onepassword-cli-go command-execution and session
layer together with the item/group helpers, translated from the Go source
(client.go, accounts.go, items.go, groups.go and the companion files).

Conventions used throughout:

* Go `time.Time` instants and `time.Duration` values are modelled as `Int`
  nanoseconds; the current clock reading is passed explicitly as a `now`
  parameter to functions that call `time.Now()` / `time.Since`.
* Pointer-valued Go fields (`*Section`, `*OpCLI`) become `Option`-valued
  fields with value semantics.
* Methods that mutate their receiver in place become functions returning the
  updated receiver, paired with the returned Go `error` modelled as
  `Option String` (`none` = nil) where the error text matters.
* Subprocess execution and JSON (un)marshalling are external effects: the
  functions that consume them take the subprocess result or the decoded
  value as an explicit argument, and the embedded definitions cover the
  argument construction and result handling the Go code performs around
  those effects.
* The `itemCache` and `logger` fields of `OpCLI` are omitted: no operation
  modelled here reads them, and the cache holds `Item`s (which in turn hold
  the back-reference to `OpCLI`), a mutual recursion that the Go code
  expresses with raw pointers.
-/

namespace OnePassword

/-- `Account` (accounts.go): one authenticated identity.  `signInTime` is an
instant and `signInExpireDuration` a duration, both in nanoseconds.  Go zero
values are the field defaults. -/
structure Account where
  URL : String := ""
  Email : String := ""
  UserUUID : String := ""
  AccountUUID : String := ""
  signInTime : Int := 0
  signInExpireDuration : Int := 0
  sessionToken : String := ""
deriving DecidableEq

/-- One second as a Go `time.Duration` (nanoseconds). -/
def second : Int := 1000000000

/-- `Account.setSignInTime` (accounts.go): records `time.Now()`, passed here
as `now`. -/
def Account.setSignInTime (a : Account) (now : Int) : Account :=
  { a with signInTime := now }

/-- `Account.setSignInExpireDuration` (accounts.go). -/
def Account.setSignInExpireDuration (a : Account) (duration : Int) : Account :=
  { a with signInExpireDuration := duration }

/-- `Account.setSessionToken` (accounts.go). -/
def Account.setSessionToken (a : Account) (token : String) : Account :=
  { a with sessionToken := token }

/-- `Account.SetSignInInfo` (accounts.go): stamps the sign-in time, the
session token, and the fixed `1740 * time.Second` (29 minute) expiry
window. -/
def Account.SetSignInInfo (a : Account) (now : Int) (token : String) : Account :=
  ((a.setSignInTime now).setSessionToken token).setSignInExpireDuration (1740 * second)

/-- `Account.IsSessionExpired` (accounts.go):
`time.Since(a.signInTime) > a.signInExpireDuration`. -/
def Account.IsSessionExpired (a : Account) (now : Int) : Bool :=
  decide ((now - a.signInTime) > a.signInExpireDuration)

/-- `Account.IsSessionValid` (accounts.go): negation of `IsSessionExpired`. -/
def Account.IsSessionValid (a : Account) (now : Int) : Bool :=
  !(a.IsSessionExpired now)

/-- `OpCLI` (client.go): the executor handle.  See the file comment for the
omitted cache/logger fields. -/
structure OpCLI where
  Path : String := ""
  accesstoken : String := ""
  Account : Option Account := none
deriving DecidableEq

/-! ## Item, vault and group data model (items.go, vaults.go, groups file) -/

/-- `Category` (items.go): string-typed item category. -/
abbrev Category := String

/-- `FieldType` (items.go). -/
abbrev FieldType := String

/-- `FieldPurpose` (items.go). -/
abbrev FieldPurpose := String

/-- `PasswordStrength` (items.go). -/
abbrev PasswordStrength := String

/-- `Permission` (permissions.go). -/
abbrev Permission := String

def CategoryLogin : Category := "LOGIN"
def CategoryPassword : Category := "PASSWORD"
def CategorySecNote : Category := "SECURE_NOTE"
def CategoryIdentity : Category := "IDENTITY"
def FieldTypeString : FieldType := "STRING"
def FieldTypeConcealed : FieldType := "CONCEALED"
def PurposeUsername : FieldPurpose := "USERNAME"
def PurposePassword : FieldPurpose := "PASSWORD"
def PurposeNotes : FieldPurpose := "NOTES"
def StrengthFantastic : PasswordStrength := "FANTASTIC"
def StrengthTerrible : PasswordStrength := "TERRIBLE"

/-- `ItemURL` (items.go): a URL associated with an item. -/
structure ItemURL where
  Href : String := ""
  Label : String := ""
  Primary : Bool := false
deriving DecidableEq

/-- `Section` (items.go): a section in an item. -/
structure Section where
  ID : String := ""
  Label : String := ""
deriving DecidableEq

/-- `PasswordDetails` (items.go).  `Entropy` is a Go `float64`, carried as
`Float`; no modelled operation computes with it. -/
structure PasswordDetails where
  Strength : PasswordStrength := ""
  History : List String := []
  Entropy : Float := 0
  Generated : Bool := false

/-- `Field` (items.go).  The Go field named `Type` is written `«Type»`
because `Type` is a Lean keyword. -/
structure Field where
  ID : String := ""
  Label : String := ""
  Value : String := ""
  Reference : String := ""
  «Type» : FieldType := ""
  Purpose : FieldPurpose := ""
  Section : Option Section := none
  PasswordDetails : Option PasswordDetails := none
  Entropy : Float := 0

/-- `Vault` (vaults.go). -/
structure Vault where
  ID : String := ""
  Name : String := ""
  ContentVersion : Int := 0
  CreatedAt : String := ""
  UpdatedAt : String := ""
  Items : Int := 0
  Description : String := ""
  AttributeVersion : Int := 0
  «Type» : String := ""
deriving DecidableEq

/-- `Item` (items.go).  `cli` is the non-serialized back-reference to the
executor; `CreatedAt`/`UpdatedAt` are `time.Time` instants. -/
structure Item where
  cli : Option OpCLI := none
  ID : String := ""
  Title : String := ""
  LastEditedBy : String := ""
  AdditionalInfo : String := ""
  Vault : Vault := {}
  Category : Category := ""
  Favorite : Bool := false
  Version : Int := 0
  CreatedAt : Int := 0
  UpdatedAt : Int := 0
  Tags : List String := []
  URLs : List ItemURL := []
  Sections : List Section := []
  Fields : List Field := []

/-- `Group` (groups file). -/
structure Group where
  cli : Option OpCLI := none
  ID : String := ""
  Name : String := ""
  Description : String := ""
  State : String := ""
  CreatedAt : Int := 0
  UpdatedAt : Int := 0
  Permissions : List Permission := []
  «Type» : String := ""
deriving DecidableEq

/-! ## Command construction and execution (client.go) -/

/-- `containsArgument` (client.go): linear scan of the argument list for an
exact match. -/
def containsArgument : List String → String → Bool
  | [], _ => false
  | a :: rest, arg => if a == arg then true else containsArgument rest arg

/-- `getDefaultArgs` (client.go): builds `["--account", userUUID]`, then
appends `--format=json` when `containsArgument` does not find it in the
list just built.  Note that the check inspects only that freshly-built
two-element list, never the caller's arguments. -/
def getDefaultArgs (userUUID : String) : List String :=
  let args : List String := ["--account", userUUID]
  if !(containsArgument args "--format=json") then args ++ ["--format=json"] else args

/-- `ExecuteOpCommand` (client.go): the missing-account precondition check
followed by argument assembly (`args = append(args, cli.getDefaultArgs()...)`).
The result is the final argv handed to the subprocess. -/
def ExecuteOpCommand (cli : OpCLI) (args : List String) : Except String (List String) :=
  match cli.Account with
  | none => .error "account information is missing"
  | some account =>
    if account.UserUUID == "" then .error "account information is missing"
    else .ok (args ++ getDefaultArgs account.UserUUID)

/-- Argument construction inside `Execute` (client.go): `--format=json` is
appended exactly when the leading verb is not `signin`. -/
def executeCmdArgs : List String → List String
  | [] => []
  | a :: rest => if a != "signin" then (a :: rest) ++ ["--format=json"] else a :: rest

/-- `interactiveCommands` (client.go). -/
def interactiveCommands : List String := ["signin", "account", "user"]

/-- `isInteractiveCommand` (client.go): pure classification of the first
argument token against the fixed allow-list. -/
def isInteractiveCommand (args : List String) : Bool :=
  match args with
  | [] => false
  | command :: _ => containsArgument interactiveCommands command

/-- Result of one subprocess run as observed through `cmd.Output()`:
whether the run succeeded, the captured stdout and stderr, and the message
of the Go process error when the run failed. -/
structure ProcResult where
  exitOk : Bool := true
  stdout : String := ""
  stderr : String := ""
  errMsg : String := ""
deriving DecidableEq

/-- `OpCliError` (client.go): captured stderr plus the underlying process
error, the latter modelled by its message string. -/
structure OpCliError where
  StderrOutput : String := ""
  Err : String := ""
deriving DecidableEq

/-- `OpCliError.Error` (client.go): the stderr text takes precedence as the
human-readable message whenever it is non-empty. -/
def OpCliError.Error (e : OpCliError) : String :=
  if e.StderrOutput != "" then e.StderrOutput else e.Err

/-- What `Execute` (client.go) returns to its caller.  The interactive
branches (terminal-connected commands and the piped-password signin path)
are collapsed into `.interactive`: they exchange data with the controlling
terminal and are outside this embedding. -/
inductive ExecuteOutcome where
  | output (stdout : String)
  | cliError (e : OpCliError)
  | interactive
  | noArgs
deriving DecidableEq

/-- `Execute` (client.go) with the subprocess run abstracted as `p`.  For a
non-interactive command it returns the captured stdout on success and, on a
failed run, discards stdout and returns an `OpCliError` carrying the
captured stderr and the process error. -/
def Execute (args : List String) (p : ProcResult) : ExecuteOutcome :=
  match args with
  | [] => .noArgs
  | _ =>
    if !(isInteractiveCommand args) then
      if p.exitOk then .output p.stdout
      else .cliError { Err := p.errMsg, StderrOutput := p.stderr }
    else .interactive

/-! ## Sign-in (client.go `SignIn`) -/

/-- Helper for `goStringContains`: the pattern is a leading run of the
text. -/
def charsLeadingMatch : List Char → List Char → Bool
  | [], _ => true
  | _ :: _, [] => false
  | a :: as, b :: bs => a == b && charsLeadingMatch as bs

/-- Helper for `goStringContains`: the pattern occurs somewhere in the
text. -/
def charsContain (needle : List Char) : List Char → Bool
  | [] => needle.isEmpty
  | c :: rest => charsLeadingMatch needle (c :: rest) || charsContain needle rest

/-- Go `strings.Contains s needle`: `needle` occurs as a contiguous
substring of `s`. -/
def goStringContains (s needle : String) : Bool :=
  charsContain needle.toList s.toList

/-- Go `unicode.IsSpace` on the characters it recognises in the Latin-1
range (space, tab, newline, vertical tab, form feed, carriage return, NEL,
NBSP); the higher Unicode space classes are not modelled. -/
def goIsSpace (c : Char) : Bool :=
  c == ' ' || c == '\t' || c == '\n' || c == '\x0B' || c == '\x0C' || c == '\r'
    || c == '\x85' || c == '\xA0'

/-- Go `strings.TrimSpace`: drop leading and trailing whitespace. -/
def goTrimSpace (s : String) : String :=
  ⟨((s.toList.dropWhile goIsSpace).reverse.dropWhile goIsSpace).reverse⟩

/-- Go `strings.ToLower` (character-wise lowering; sufficient for the ASCII
stderr phrases `SignIn` matches against). -/
def goToLower (s : String) : String :=
  ⟨s.toList.map Char.toLower⟩

/-- The argv that `SignIn` (client.go) builds for both its passwordless and
its password-fallback attempt:
`exec.CommandContext(ctx, cli.Path, "signin", "--account", account.UserUUID, "--raw")`. -/
def signInArgs (userUUID : String) : List String :=
  ["signin", "--account", userUUID, "--raw"]

/-- How `SignIn` (client.go) disposes of the passwordless attempt:
`success` means it stamps the account via `SetSignInInfo`, sets
`cli.Account`, and returns nil right away (`exportedToken` is the value
written to `OP_SESSION_<UserUUID>`, exported only when non-empty);
`fallback` means it proceeds to the interactive password prompt;
`hardError` is the `signin failed: <stderr>` return. -/
inductive PasswordlessOutcome where
  | success (stampedAccount : Account) (exportedToken : Option String)
  | fallback
  | hardError (msg : String)
deriving DecidableEq

/-- Discriminator: did `SignIn` treat the passwordless attempt as a
successful authentication? -/
def PasswordlessOutcome.isSuccess : PasswordlessOutcome → Bool
  | .success _ _ => true
  | _ => false

/-- The passwordless branch of `SignIn` (client.go), as a function of the
subprocess result `p`.  On a clean exit the trimmed stdout becomes the
session token, the token is exported when non-empty, the account is stamped
and nil is returned; on a failed exit the lowered stderr is matched against
the two known password-prompt phrases to decide between the password
fallback and a hard error. -/
def SignInPasswordlessStep (account : Account) (now : Int) (p : ProcResult) :
    PasswordlessOutcome :=
  if p.exitOk then
    let sessionToken := goTrimSpace p.stdout
    .success (account.SetSignInInfo now sessionToken)
      (if sessionToken != "" then some sessionToken else none)
  else
    if goStringContains (goToLower p.stderr) "enter the password for"
        || goStringContains (goToLower p.stderr) "authentication" then
      .fallback
    else
      .hardError ("signin failed: " ++ p.stderr)

/-! ## Item operations (items.go and the items helper file) -/

/-- The scan-and-update loop shared by `AddUserName` / `AddPassword` /
`AddNotes` (items.go): walk the fields, set `Value` on the first field
satisfying `p` and stop; `none` when no field matched. -/
def updateFirstField (p : Field → Bool) (value : String) : List Field → Option (List Field)
  | [] => none
  | field :: rest =>
    if p field then some ({ field with Value := value } :: rest)
    else
      match updateFirstField p value rest with
      | some rest2 => some (field :: rest2)
      | none => none

/-- `Item.AddUserName` (items.go): update the first field whose purpose is
username *and whose section pointer is non-nil*; otherwise append a fresh
username field (whose section is nil, all other unset Go fields being zero
values). -/
def Item.AddUserName (item : Item) (username : String) : Item :=
  match updateFirstField
      (fun field => field.Purpose == PurposeUsername && field.Section.isSome)
      username item.Fields with
  | some fields => { item with Fields := fields }
  | none =>
    { item with
        Fields := item.Fields ++
          [{ ID := "username", «Type» := FieldTypeString, Purpose := PurposeUsername,
             Label := "username", Value := username }] }

/-- `Item.AddURL` (items.go): when the new URL is primary, clear the
`Primary` flag of every stored URL; then append the new URL. -/
def Item.AddURL (item : Item) (url : ItemURL) : Item :=
  let existing :=
    if url.Primary then item.URLs.map (fun u => { u with Primary := false })
    else item.URLs
  { item with URLs := existing ++ [url] }

/-- `Item.DeleteURLs` (items helper file): two pre-flight guards (empty list,
and the documented refusal to delete the sole remaining URL), then one pass
that keeps the non-matching URLs and records whether any URL matched.
Returns the updated receiver together with the Go error (`none` = nil); on
every error path the receiver is unchanged. -/
def Item.DeleteURLs (item : Item) (href : String) : Item × Option String :=
  if item.URLs.length == 0 then
    (item, some "no URLs found to remove")
  else if item.URLs.length == 1 then
    (item, some "cannot delete the last URL due to a known issue in the 1Password CLI")
  else
    let updatedURLs := item.URLs.filter (fun url => !(url.Href == href))
    let found := item.URLs.any (fun url => url.Href == href)
    if !found then
      (item, some ("no URLs with href \x27" ++ href ++ "\x27 found"))
    else
      ({ item with URLs := updatedURLs }, none)

/-- The deletion loop of `DeleteFieldFromSection` (items.go), kept with the
source's condition verbatim: the Go loop variable shadows the `field`
parameter, so the first conjunct compares the loop variable's ID with
itself (`f.ID == f.ID`), and only the section comparison selects the field
that gets removed. -/
def deleteFieldFromSectionLoop (sec : Section) (field : Field) :
    List Field → Option (List Field)
  | [] => none
  | f :: rest =>
    if f.ID == f.ID &&
        (match f.Section with
         | some s => s.ID == sec.ID && s.Label == sec.Label
         | none => false) then
      some rest
    else
      match deleteFieldFromSectionLoop sec field rest with
      | some rest2 => some (f :: rest2)
      | none => none

/-- `Item.DeleteFieldFromSection` (items.go).  The Go parameter named
`section` is written `sec` because `section` is a Lean keyword.  Returns
the updated receiver and the Go error (`none` = nil). -/
def Item.DeleteFieldFromSection (item : Item) (sec : Section) (field : Field) :
    Item × Option String :=
  match deleteFieldFromSectionLoop sec field item.Fields with
  | some fields => ({ item with Fields := fields }, none)
  | none => (item, some "Field not found in section")

/-! ## List fetches and back-references (items.go `GetItems`, groups file
`ListGroups`).  `ExecuteOpCommand` and `json.Unmarshal` are external
effects; the decoded list is passed in as `decoded`, and these definitions
embed the back-reference loop the Go code runs before returning
(`for i := range items { items[i].cli = cli }`). -/

/-- `GetItems` (items.go) after decoding. -/
def GetItems (cli : OpCLI) (decoded : List Item) : List Item :=
  decoded.map (fun item => { item with cli := some cli })

/-- `ListGroups` (groups file) after decoding. -/
def ListGroups (cli : OpCLI) (decoded : List Group) : List Group :=
  decoded.map (fun group => { group with cli := some cli })

/-! ## Concrete fixtures used by witnesses and counterexamples -/

/-- A signed-in executor with account user identifier `u1`. -/
def opCLIu1 : OpCLI :=
  { Path := "/usr/bin/op", Account := some { UserUUID := "u1" } }

/-- A concrete account. -/
def accountU1 : Account :=
  { URL := "https://my.1password.com", Email := "me@example.com", UserUUID := "u1",
    AccountUUID := "acct1" }

/-- An item with no fields, no URLs. -/
def itemEmpty : Item := {}

/-- A concrete section. -/
def sectionS : Section := { ID := "s1", Label := "Sec" }

/-- A field with ID `a` inside `sectionS`. -/
def fieldA : Field := { ID := "a", Label := "fa", Section := some sectionS }

/-- A field with ID `b` inside `sectionS`. -/
def fieldB : Field := { ID := "b", Label := "fb", Section := some sectionS }

/-- An item holding `fieldA` and `fieldB`, in that order, both in
`sectionS`. -/
def itemAB : Item := { Sections := [sectionS], Fields := [fieldA, fieldB] }

/-- Two concrete URLs. -/
def urlOne : ItemURL := { Href := "https://one.example", Label := "one" }

def urlTwo : ItemURL := { Href := "https://two.example", Label := "two" }

/-- An item with a single URL. -/
def itemOneURL : Item := { URLs := [urlOne] }

/-- An item with two URLs. -/
def itemTwoURLs : Item := { URLs := [urlOne, urlTwo] }

/-! ## C1 -/

/-- C1: the claim demands exactly one `--format=json` flag and exactly one
`--account` pair in the final argv even when the caller already supplied
them.  The code appends `getDefaultArgs` unconditionally — the
`containsArgument` dedup check inspects only the freshly built
`["--account", u1]` list — so with base arguments
`["item", "list", "--format=json"]` the final argv carries `--format=json`
twice.  This theorem evaluates the code at that failing input. -/
theorem executeOpCommand_duplicates_caller_format_flag :
    ExecuteOpCommand opCLIu1 ["item", "list", "--format=json"] =
      .ok ["item", "list", "--format=json", "--account", "u1", "--format=json"] ∧
    (["item", "list", "--format=json", "--account", "u1", "--format=json"] :
        List String).count "--format=json" = 2 ∧
    ExecuteOpCommand opCLIu1 ["item", "list", "--account", "u1"] =
      .ok ["item", "list", "--account", "u1", "--account", "u1", "--format=json"] ∧
    (["item", "list", "--account", "u1", "--account", "u1", "--format=json"] :
        List String).count "--account" = 2 := by
  refine ⟨rfl, by decide, rfl, by decide⟩

/-! ## C8 -/

/-- C8: the claim (and the method's own documentation) say a second
`AddUserName` call updates the existing username field in place.  The
update branch additionally requires the existing field's section to be
non-nil, which is never true of the sectionless field `AddUserName` itself
appends, so two calls on an item with no fields produce two
username-purpose fields, holding both supplied values.  This theorem
evaluates the code at that failing input. -/
theorem addUserName_twice_appends_duplicate :
    ((itemEmpty.AddUserName "alice").AddUserName "bob").Fields.map
        (fun field => (field.Purpose, field.Value)) =
      [(PurposeUsername, "alice"), (PurposeUsername, "bob")] ∧
    ((itemEmpty.AddUserName "alice").AddUserName "bob").Fields.countP
        (fun field => field.Purpose == PurposeUsername) = 2 := by
  exact ⟨rfl, rfl⟩

/-! ## C9 -/

/-- C9: the claim states the intended contract — remove the field whose ID
matches the `field` parameter, error when absent.  Because the Go loop
variable shadows the parameter, the ID conjunct compares a field with
itself and the loop removes the *first* field of the matching section:
called on `itemAB` (fields `a`, `b` in section `s1`) with parameter
`fieldB`, the code removes field `a` and reports no error, and called with
a parameter whose ID (`zzz`) appears nowhere it still removes field `a`
instead of failing.  This theorem evaluates the code at those failing
inputs. -/
theorem deleteFieldFromSection_ignores_parameter_id :
    (itemAB.DeleteFieldFromSection sectionS fieldB).2 = none ∧
    (itemAB.DeleteFieldFromSection sectionS fieldB).1.Fields.map
        (fun f => f.ID) = ["b"] ∧
    (itemAB.DeleteFieldFromSection sectionS { ID := "zzz" }).2 = none ∧
    (itemAB.DeleteFieldFromSection sectionS { ID := "zzz" }).1.Fields.map
        (fun f => f.ID) = ["b"] := by
  exact ⟨rfl, rfl, rfl, rfl⟩

/-! ## C2 -/

/-- C2 (counterexample): when the passwordless signin subprocess exits
cleanly with empty stdout, `SignIn` does *not* treat the attempt as
requiring the password fallback — it stamps the account with the empty
session token and returns nil, i.e. it reports the attempt as a successful
authentication. -/
theorem signIn_cleanEmptyStdout_reports_success :
    SignInPasswordlessStep accountU1 0 { exitOk := true, stdout := "", stderr := "" } =
      .success (accountU1.SetSignInInfo 0 "") none ∧
    (SignInPasswordlessStep accountU1 0
        { exitOk := true, stdout := "", stderr := "" }).isSuccess = true ∧
    SignInPasswordlessStep accountU1 0 { exitOk := true, stdout := "", stderr := "" } ≠
      .fallback := by
  refine ⟨rfl, rfl, by decide⟩

/-- C2 (amended): whenever the passwordless signin subprocess exits cleanly,
`SignIn` reports a successful authentication regardless of whether stdout
carries a token: the account is stamped with the trimmed stdout (possibly
empty) as session token, the token is exported only when non-empty, and the
password fallback is never reached from a clean exit. -/
theorem signIn_cleanExit_always_success (account : Account) (now : Int)
    (p : ProcResult) (h : p.exitOk = true) :
    SignInPasswordlessStep account now p =
      .success (account.SetSignInInfo now (goTrimSpace p.stdout))
        (if goTrimSpace p.stdout != "" then some (goTrimSpace p.stdout) else none) := by
  simp only [SignInPasswordlessStep, h, if_true]

/-- Witness for `signIn_cleanExit_always_success` at a concrete clean-exit
run whose stdout is blank. -/
theorem signIn_cleanExit_always_success_witness :
    SignInPasswordlessStep accountU1 0 { exitOk := true, stdout := " ", stderr := "" } =
      .success (accountU1.SetSignInInfo 0 "") none := by
  have h := signIn_cleanExit_always_success accountU1 0
    { exitOk := true, stdout := " ", stderr := "" } rfl
  exact h

/-! ## C5 -/

/-- C5 (counterexample): at the exact 29-minute boundary the claimed
characterisation `now - signInTime < signInExpireDuration` is false, yet
`IsSessionValid` (the negation of the strict-`>` expiry check) still
returns true. -/
theorem isSessionValid_true_at_boundary :
    (accountU1.SetSignInInfo 0 "tok").IsSessionValid (1740 * second) = true ∧
    ¬((1740 * second : Int) - (accountU1.SetSignInInfo 0 "tok").signInTime <
        (accountU1.SetSignInInfo 0 "tok").signInExpireDuration) := by
  refine ⟨rfl, by decide⟩

/-- C5 (amended): `IsSessionValid` returns true exactly when
`now - signInTime ≤ signInExpireDuration`; the expiry duration stamped by
`SetSignInInfo` is fixed at 29 minutes (1740 s), the session is valid
immediately after sign-in, and it is invalid once strictly more than 29
minutes have elapsed without re-sign-in. -/
theorem isSessionValid_spec (a : Account) (now t : Int) (token : String) :
    (a.IsSessionValid now = true ↔ now - a.signInTime ≤ a.signInExpireDuration) ∧
    (a.SetSignInInfo t token).signInExpireDuration = 1740 * second ∧
    (a.SetSignInInfo t token).IsSessionValid t = true ∧
    (now - t > 1740 * second → (a.SetSignInInfo t token).IsSessionValid now = false) := by
  constructor
  · simp [Account.IsSessionValid, Account.IsSessionExpired, not_lt]
  refine ⟨rfl, ?_, ?_⟩
  · simp only [Account.IsSessionValid, Account.IsSessionExpired, Account.SetSignInInfo,
      Account.setSignInTime, Account.setSessionToken, Account.setSignInExpireDuration,
      Bool.not_eq_true', decide_eq_false_iff_not, not_lt, sub_self]
    norm_num [second]
  · intro h
    simp only [Account.IsSessionValid, Account.IsSessionExpired, Account.SetSignInInfo,
      Account.setSignInTime, Account.setSessionToken, Account.setSignInExpireDuration,
      Bool.not_eq_false', decide_eq_true_eq]
    exact h

/-- Witness for `isSessionValid_spec`: concrete account, sign-in at time 0,
checks at the sign-in instant and one second past the 29-minute window. -/
theorem isSessionValid_spec_witness :
    (accountU1.IsSessionValid 0 = true ↔
      (0 : Int) - accountU1.signInTime ≤ accountU1.signInExpireDuration) ∧
    (accountU1.SetSignInInfo 0 "tok").signInExpireDuration = 1740 * second ∧
    (accountU1.SetSignInInfo 0 "tok").IsSessionValid 0 = true ∧
    (accountU1.SetSignInInfo 0 "tok").IsSessionValid (1741 * second) = false := by
  have h := isSessionValid_spec accountU1 (1741 * second) 0 "tok"
  have h0 := isSessionValid_spec accountU1 0 0 "tok"
  exact ⟨h0.1, h.2.1, h.2.2.1, h.2.2.2 (by decide)⟩

/-! ## C3 -/

/-- C3: `Execute` never appends `--format=json` when the first argument is
`signin` (the constructed argv is the caller's argv unchanged, so it
contains the flag only if the caller passed it, which the signin
invocation built by `SignIn` — carrying `--raw` — does not), while for
every other first argument `Execute` appends `--format=json`. -/
theorem execute_format_flag_policy :
    (∀ rest : List String, executeCmdArgs ("signin" :: rest) = "signin" :: rest) ∧
    (∀ rest : List String, "--format=json" ∉ rest →
      "--format=json" ∉ executeCmdArgs ("signin" :: rest)) ∧
    (∀ uuid : String,
      signInArgs uuid = ["signin", "--account", uuid, "--raw"] ∧
      "--raw" ∈ signInArgs uuid ∧
      (uuid ≠ "--format=json" → "--format=json" ∉ signInArgs uuid)) ∧
    (∀ (verb : String) (rest : List String), verb ≠ "signin" →
      executeCmdArgs (verb :: rest) = (verb :: rest) ++ ["--format=json"]) := by
  refine ⟨?_, ?_, ?_, ?_⟩
  · intro rest
    simp [executeCmdArgs]
  · intro rest h
    have h1 : executeCmdArgs ("signin" :: rest) = "signin" :: rest := by
      simp [executeCmdArgs]
    rw [h1]
    intro hmem
    rcases List.mem_cons.mp hmem with h2 | h2
    · exact absurd h2 (by decide)
    · exact h h2
  · intro uuid
    refine ⟨rfl, by simp [signInArgs], ?_⟩
    intro hne hmem
    simp only [signInArgs, List.mem_cons, List.not_mem_nil, or_false] at hmem
    rcases hmem with h2 | h2 | h2 | h2
    · exact absurd h2 (by decide)
    · exact absurd h2 (by decide)
    · exact hne h2.symm
    · exact absurd h2 (by decide)
  · intro verb rest h
    simp [executeCmdArgs, bne_iff_ne, h]

/-- Witness for `execute_format_flag_policy` at the signin argv built by
`SignIn` and at a plain `item list` invocation. -/
theorem execute_format_flag_policy_witness :
    executeCmdArgs ["signin", "--account", "u1", "--raw"] =
      ["signin", "--account", "u1", "--raw"] ∧
    "--format=json" ∉ executeCmdArgs ["signin", "--account", "u1", "--raw"] ∧
    executeCmdArgs ["item", "list"] = ["item", "list", "--format=json"] := by
  have h := execute_format_flag_policy
  exact ⟨h.1 ["--account", "u1", "--raw"], h.2.1 ["--account", "u1", "--raw"] (by decide),
    h.2.2.2 "item" ["list"] (by decide)⟩

/-! ## C4 -/

/-- C4: when a non-interactive run exits non-zero, `Execute` discards stdout
and returns an `OpCliError` carrying the captured stderr; whenever that
stderr is non-empty, the error's human-readable message is exactly the
stderr text. -/
theorem execute_nonzero_exit_returns_stderr_error (args : List String) (p : ProcResult)
    (hne : args ≠ []) (hint : isInteractiveCommand args = false)
    (hexit : p.exitOk = false) :
    Execute args p = .cliError { StderrOutput := p.stderr, Err := p.errMsg } ∧
    (p.stderr ≠ "" →
      OpCliError.Error { StderrOutput := p.stderr, Err := p.errMsg } = p.stderr) := by
  constructor
  · cases args with
    | nil => exact absurd rfl hne
    | cons a rest => simp [Execute, hint, hexit]
  · intro hs
    simp [OpCliError.Error, bne_iff_ne, hs]

/-- Witness for `execute_nonzero_exit_returns_stderr_error`: the spec's
scenario — a process exiting non-zero with stderr `vault not found`. -/
theorem execute_nonzero_exit_returns_stderr_error_witness :
    Execute ["vault", "get", "v1"]
        { exitOk := false, stdout := "partial", stderr := "vault not found",
          errMsg := "exit status 1" } =
      .cliError { StderrOutput := "vault not found", Err := "exit status 1" } ∧
    OpCliError.Error { StderrOutput := "vault not found", Err := "exit status 1" } =
      "vault not found" := by
  have h := execute_nonzero_exit_returns_stderr_error ["vault", "get", "v1"]
    { exitOk := false, stdout := "partial", stderr := "vault not found",
      errMsg := "exit status 1" } (by decide) (by decide) rfl
  exact ⟨h.1, h.2 (by decide)⟩

/-! ## C6 -/

/-- C6: a successful list fetch that decodes `N` entities returns exactly
`N` records, and every element — at every index, not a sample — has its
back-reference populated with the executor that issued the call, for both
`GetItems` and `ListGroups`. -/
theorem listFetch_sets_backrefs (cli : OpCLI) (items : List Item) (groups : List Group) :
    (GetItems cli items).length = items.length ∧
    (∀ i (h : i < (GetItems cli items).length),
      ((GetItems cli items).get ⟨i, h⟩).cli = some cli) ∧
    (ListGroups cli groups).length = groups.length ∧
    (∀ i (h : i < (ListGroups cli groups).length),
      ((ListGroups cli groups).get ⟨i, h⟩).cli = some cli) := by
  refine ⟨by simp [GetItems], ?_, by simp [ListGroups], ?_⟩
  · intro i h
    simp [GetItems, List.get_eq_getElem, List.getElem_map]
  · intro i h
    simp [ListGroups, List.get_eq_getElem, List.getElem_map]

/-- Witness for `listFetch_sets_backrefs` on singleton decode results. -/
theorem listFetch_sets_backrefs_witness :
    (GetItems opCLIu1 [itemEmpty]).length = 1 ∧
    ((GetItems opCLIu1 [itemEmpty]).get ⟨0, by simp [GetItems]⟩).cli = some opCLIu1 ∧
    (ListGroups opCLIu1 [{}]).length = 1 ∧
    ((ListGroups opCLIu1 [{}]).get ⟨0, by simp [ListGroups]⟩).cli = some opCLIu1 := by
  have h := listFetch_sets_backrefs opCLIu1 [itemEmpty] [{}]
  exact ⟨h.1, h.2.1 0 (by simp [GetItems]), h.2.2.1, h.2.2.2 0 (by simp [ListGroups])⟩

/-! ## C7 -/

/-- C7: `DeleteURLs` on an item whose URL list has length 1 fails with the
documented pre-flight error and leaves the receiver unchanged (the
embedded function is pure — the guard fires before any subprocess could be
involved); on an item with two URLs of which exactly one matches the given
href it succeeds and exactly one URL remains. -/
theorem deleteURLs_guard_and_success (item : Item) (href : String) :
    (item.URLs.length = 1 →
      item.DeleteURLs href =
        (item, some "cannot delete the last URL due to a known issue in the 1Password CLI")) ∧
    (∀ u1 u2 : ItemURL, item.URLs = [u1, u2] → u1.Href = href → u2.Href ≠ href →
      item.DeleteURLs href = ({ item with URLs := [u2] }, none)) ∧
    (∀ u1 u2 : ItemURL, item.URLs = [u1, u2] → u1.Href ≠ href → u2.Href = href →
      item.DeleteURLs href = ({ item with URLs := [u1] }, none)) := by
  refine ⟨?_, ?_, ?_⟩
  · intro h
    simp [Item.DeleteURLs, h]
  · intro u1 u2 h2 ha hb
    simp [Item.DeleteURLs, h2, ha, hb]
  · intro u1 u2 h2 ha hb
    simp [Item.DeleteURLs, h2, ha, hb]

/-- Witness for `deleteURLs_guard_and_success`: the single-URL guard on
`itemOneURL` and the two-URL success on `itemTwoURLs`. -/
theorem deleteURLs_guard_and_success_witness :
    itemOneURL.DeleteURLs "https://one.example" =
      (itemOneURL,
        some "cannot delete the last URL due to a known issue in the 1Password CLI") ∧
    itemTwoURLs.DeleteURLs "https://one.example" =
      ({ itemTwoURLs with URLs := [urlTwo] }, none) := by
  have h1 := (deleteURLs_guard_and_success itemOneURL "https://one.example").1 (by decide)
  have h2 := (deleteURLs_guard_and_success itemTwoURLs "https://one.example").2.1
    urlOne urlTwo rfl rfl (by decide)
  exact ⟨h1, h2⟩

/-! ## C10 -/

/-- Clearing the `Primary` flag of every URL leaves none marked primary. -/
theorem countP_primary_cleared (l : List ItemURL) :
    (l.map (fun u => { u with Primary := false })).countP (fun u => u.Primary) = 0 := by
  induction l with
  | nil => rfl
  | cons u rest ih => simp [List.countP_cons, ih]

/-- C10: `AddURL` always appends the given URL (URL count grows by one);
when the new URL is primary every previously stored URL is demoted so the
new one is the unique primary, when it is not primary the stored URLs are
untouched, and in either case an item with at most one primary URL still
has at most one primary URL afterwards. -/
theorem addURL_spec (item : Item) (url : ItemURL) :
    (item.AddURL url).URLs.length = item.URLs.length + 1 ∧
    (url.Primary = true →
      (item.AddURL url).URLs.countP (fun u => u.Primary) = 1) ∧
    (url.Primary = false → (item.AddURL url).URLs = item.URLs ++ [url]) ∧
    (item.URLs.countP (fun u => u.Primary) ≤ 1 →
      (item.AddURL url).URLs.countP (fun u => u.Primary) ≤ 1) := by
  have hfalse : url.Primary = false → (item.AddURL url).URLs = item.URLs ++ [url] := by
    intro hp
    simp [Item.AddURL, hp]
  have htrue : url.Primary = true →
      (item.AddURL url).URLs.countP (fun u => u.Primary) = 1 := by
    intro hp
    simp [Item.AddURL, hp, List.countP_append, List.countP_cons, countP_primary_cleared]
  refine ⟨?_, htrue, hfalse, ?_⟩
  · cases hp : url.Primary <;> simp [Item.AddURL, hp]
  · intro hle
    cases hp : url.Primary with
    | true => rw [htrue hp]
    | false =>
      rw [hfalse hp]
      simpa [List.countP_append, List.countP_cons, hp] using hle

/-- Witness for `addURL_spec`: adding a primary URL to `itemTwoURLs`
(which has no primary URL). -/
theorem addURL_spec_witness :
    (itemTwoURLs.AddURL { Href := "https://three.example", Primary := true }).URLs.length =
      itemTwoURLs.URLs.length + 1 ∧
    (itemTwoURLs.AddURL { Href := "https://three.example", Primary := true }).URLs.countP
      (fun u => u.Primary) = 1 ∧
    (itemTwoURLs.AddURL { Href := "https://three.example", Primary := true }).URLs.countP
      (fun u => u.Primary) ≤ 1 := by
  have h := addURL_spec itemTwoURLs { Href := "https://three.example", Primary := true }
  exact ⟨h.1, h.2.1 rfl, h.2.2.2 (by decide)⟩

end OnePassword
